import Mathlib

/-!
Verification development for the garden-controller firmware core
(`src/app.c`): the schedule engine (`app_calculate_state`), the
profile data model with its flash persistence contract
(`app_save_profiles` / `app_reload_profiles`), and the rotary-encoder
navigation state machine (`app_on_encoder_change`, `app_on_click`,
`app_tick`).

Machine integers are modelled as `Nat` / `Int` with explicit reductions
modulo `2^32` / `2^64` exactly where the C code performs a conversion
to `uint32_t` / `uint64_t`.
-/

/-- Value of the C conversion `(uint32_t) x` for an `int` value `x`. -/
def u32ofInt (x : Int) : Nat := (x % (2 ^ 32 : Int)).toNat

/-- Value of the C conversion `(int) n` for a `uint32_t` value `n`
(two's-complement wraparound, as gcc/arm implement it). -/
def intOfU32 (n : Nat) : Int := if n < 2 ^ 31 then (n : Int) else (n : Int) - 2 ^ 32

/-- C subtraction `a - b` on `uint64_t` operands (values `< 2^64`). -/
def u64sub (a b : Nat) : Nat := (a % 2 ^ 64 + 2 ^ 64 - b % 2 ^ 64) % 2 ^ 64

/-- The struct `period_t`: duration in minutes (0 disables the slot) and
the two LED power levels.  All three fields are C `int`s. -/
structure Period where
  duration : Int
  led_white_red_power : Int
  led_blue_power : Int
deriving DecidableEq

/-- The struct `profile_t`: a name and six period slots. -/
structure Profile where
  name : String
  periods : List Period
deriving DecidableEq

/-- The struct `app_state_t` (the derived output state). -/
structure AppState where
  period_index : Int
  white_red : Int
  blue : Int
  pump : Bool
  pump_minutes_left : Int
  period_minutes_left : Int
deriving DecidableEq

/-- A period slot with all fields zero (`{.duration = 0}` in C zero-fills
the power levels as well). -/
def defaultPeriod : Period := ⟨0, 0, 0⟩

/-- An all-disabled profile value, used as the out-of-range fallback of
list lookups (never reached on in-range indices). -/
def defaultProfile : Profile := ⟨"", List.replicate 6 defaultPeriod⟩

/-- The factory-default contents of the static array `profiles`. -/
def defaultProfiles : List Profile :=
  [ ⟨"VEG", [⟨60 * 14, 100, 100⟩, ⟨60 * 10, 0, 0⟩, ⟨0, 0, 0⟩, ⟨0, 0, 0⟩, ⟨0, 0, 0⟩, ⟨0, 0, 0⟩]⟩,
    ⟨"FLOWER", [⟨60 * 12, 100, 0⟩, ⟨60 * 12, 0, 0⟩, ⟨0, 0, 0⟩, ⟨0, 0, 0⟩, ⟨0, 0, 0⟩, ⟨0, 0, 0⟩]⟩,
    ⟨"FRUIT", [⟨60 * 16, 100, 0⟩, ⟨60 * 8, 0, 0⟩, ⟨0, 0, 0⟩, ⟨0, 0, 0⟩, ⟨0, 0, 0⟩, ⟨0, 0, 0⟩]⟩,
    ⟨"CUSTOM 1", [⟨0, 0, 0⟩, ⟨0, 0, 0⟩, ⟨0, 0, 0⟩, ⟨0, 0, 0⟩, ⟨0, 0, 0⟩, ⟨0, 0, 0⟩]⟩,
    ⟨"CUSTOM 2", [⟨0, 0, 0⟩, ⟨0, 0, 0⟩, ⟨0, 0, 0⟩, ⟨0, 0, 0⟩, ⟨0, 0, 0⟩, ⟨0, 0, 0⟩]⟩ ]

/-- The static initial value of `current_app_state`
(`{.white_red = -1, .blue = -1}`, remaining fields zero-filled). -/
def initialAppState : AppState := ⟨0, -1, -1, false, 0, 0⟩

/-- `minutes_since_start` as `app_calculate_state` computes it:
`uint64_t` microsecond difference, divided down to minutes, then
truncated by the assignment to a `uint32_t`. -/
def minutesSinceU32 (nowUs startUs : Nat) : Nat :=
  u64sub nowUs startUs / 1000000 / 60 % 2 ^ 32

/-- The accumulation `profile_total_minutes += profile->periods[i].duration`
over the six slots (`uint32_t` accumulator, `int` summands). -/
def profileTotalMinutes (p : Profile) : Nat :=
  p.periods.foldl (fun acc per => (acc + u32ofInt per.duration) % 2 ^ 32) 0

/-- The wrap `minutes_since_start = minutes_since_start % profile_total_minutes`
guarded by `minutes_since_start >= profile_total_minutes`. -/
def lightPosition (nowUs startUs : Nat) (total : Nat) : Nat :=
  if minutesSinceU32 nowUs startUs ≥ total then minutesSinceU32 nowUs startUs % total
  else minutesSinceU32 nowUs startUs

/-- The pump block of `app_calculate_state` (src/app.c lines 332-365),
given the cycle position `c = minutes % PUMP_TOTAL_MINUTES`.  Returns the
updated state and the local change flag `ret`.  `5 - c` and `35 - c` are
computed in `uint32_t` arithmetic and stored back into the `int` field
`pump_minutes_left`. -/
def pumpStep (c : Nat) (s : AppState) : AppState × Bool :=
  if c < 5 then
    if s.pump = false then
      ({ s with pump := true,
                pump_minutes_left := intOfU32 ((5 + 2 ^ 32 - c) % 2 ^ 32) }, true)
    else
      ({ s with pump_minutes_left := intOfU32 ((5 + 2 ^ 32 - c) % 2 ^ 32) },
        decide (u32ofInt s.pump_minutes_left ≠ (5 + 2 ^ 32 - c) % 2 ^ 32))
  else
    if s.pump = true then
      ({ s with pump := false,
                pump_minutes_left := intOfU32 ((35 + 2 ^ 32 - c) % 2 ^ 32) }, true)
    else
      ({ s with pump_minutes_left := intOfU32 ((35 + 2 ^ 32 - c) % 2 ^ 32) },
        decide (u32ofInt s.pump_minutes_left ≠ (35 + 2 ^ 32 - c) % 2 ^ 32))

/-- Pairs each period slot with its loop index `i`, starting at `j`. -/
def enumPeriods : Nat → List Period → List (Nat × Period)
  | _, [] => []
  | j, p :: ps => (j, p) :: enumPeriods (j + 1) ps

/-- The period walk of `app_calculate_state` (src/app.c lines 372-407):
skip zero-duration slots, stop at the first slot whose cumulative window
contains `msm`, otherwise fall through to the all-off branch.
`elapsed` is the `uint32_t` accumulator `elapsed_minutes`; the bound
check and the remaining-minutes expression are `uint32_t` arithmetic. -/
def lightWalk : List (Nat × Period) → Nat → Nat → AppState → Bool → AppState × Bool
  | [], _, _, s, ret =>
    if s.white_red ≠ 0 ∨ s.blue ≠ 0 ∨ s.period_minutes_left ≠ 0 then
      ({ s with white_red := 0, blue := 0, period_minutes_left := 0 }, true)
    else (s, ret)
  | (i, p) :: rest, elapsed, msm, s, ret =>
    if p.duration = 0 then lightWalk rest elapsed msm s ret
    else
      if msm < (elapsed + u32ofInt p.duration) % 2 ^ 32 then
        if s.white_red ≠ p.led_white_red_power ∨ s.blue ≠ p.led_blue_power ∨
           u32ofInt s.period_minutes_left ≠
             ((elapsed + u32ofInt p.duration) % 2 ^ 32 + 2 ^ 32 - msm) % 2 ^ 32 ∨
           s.period_index ≠ (i : Int) then
          ({ s with
               white_red := p.led_white_red_power,
               blue := p.led_blue_power,
               period_minutes_left :=
                 intOfU32 (((elapsed + u32ofInt p.duration) % 2 ^ 32 + 2 ^ 32 - msm) % 2 ^ 32),
               period_index := (i : Int) }, true)
        else (s, ret)
      else lightWalk rest ((elapsed + u32ofInt p.duration) % 2 ^ 32) msm s ret

/-- The schedule engine `app_calculate_state` (src/app.c lines 306-408) as a
pure function of the evaluation time, the two clock baselines
(`app_start_time`, `app_start_time_without_shift`), the active profile and
the previous output state.  Returns the new output state and the change
flag the C function returns. -/
def app_calculate_state (nowUs startUs startNsUs : Nat) (profile : Profile)
    (s : AppState) : AppState × Bool :=
  if profileTotalMinutes profile = 0 then
    if s.white_red ≠ 0 ∨ s.blue ≠ 0 then ({ s with white_red := 0, blue := 0 }, true)
    else (s, false)
  else
    lightWalk (enumPeriods 0 profile.periods) 0
      (lightPosition nowUs startUs (profileTotalMinutes profile))
      (pumpStep (minutesSinceU32 nowUs startNsUs % 35) s).1
      (pumpStep (minutesSinceU32 nowUs startNsUs % 35) s).2

/-- Sum of the period durations, as exact natural numbers (statement
vocabulary for the cumulative windows of the walk). -/
def durSum (ps : List Period) : Nat := ps.foldr (fun p acc => p.duration.toNat + acc) 0

/-- The enum `app_mode_t`. -/
inductive AppMode where
  | showState | showProfile | editProfile | editPeriod
  | editWrLevel | editBlLevel | editDuration | topMenu | timeShift
deriving DecidableEq

/-- The enum `top_menu_action_t` (SHIFT = 0 .. FLASH = 3). -/
inductive TopMenuAction where
  | shift | save | reload | flashAction
deriving DecidableEq

/-- Integer value of a `top_menu_action_t`. -/
def TopMenuAction.toInt : TopMenuAction → Int
  | .shift => 0
  | .save => 1
  | .reload => 2
  | .flashAction => 3

/-- `top_menu_action_t` with a given integer value (0..3). -/
def TopMenuAction.ofInt (n : Int) : TopMenuAction :=
  if n = 0 then .shift else if n = 1 then .save else if n = 2 then .reload else .flashAction

/-- The enum `edit_mode_t` (BACK = 0 .. BL_LEVEL = 3). -/
inductive EditMode where
  | back | duration | wrLevel | blLevel
deriving DecidableEq

/-- Integer value of an `edit_mode_t`. -/
def EditMode.toInt : EditMode → Int
  | .back => 0
  | .duration => 1
  | .wrLevel => 2
  | .blLevel => 3

/-- `edit_mode_t` with a given integer value (0..3). -/
def EditMode.ofInt (n : Int) : EditMode :=
  if n = 0 then .back else if n = 1 then .duration else if n = 2 then .wrLevel else .blLevel

/-- The persisted flash region: either the 4-byte magic marker
`A5 5A A5 5A` is absent, or it is present followed by the serialized
active profile index and the profile array (`app_save_profiles` writes
them with `memcpy`; `app_reload_profiles` reads them back the same way,
so the region is modelled at the level of the serialized values). -/
inductive FlashRegion where
  | noMagic
  | data (activeIndex : Int) (profiles : List Profile)
deriving DecidableEq

/-- The mutable globals of src/app.c that the engine, the persistence
adapter and the navigation state machine share. -/
structure Sys where
  profiles : List Profile
  current_profile : Int
  app_start_time : Nat
  app_start_time_without_shift : Nat
  last_encoder_time : Nat
  current_app_state : AppState
  current_app_mode : AppMode
  menu_profile_index : Int
  current_edit_period_index : Int
  current_edit_value : EditMode
  current_top_menu_action : TopMenuAction
  time_shift_hours : Int
  flash : FlashRegion
deriving DecidableEq

/-- `profiles[current_profile].periods[current_edit_period_index]`, the
period the edit handlers read and write. -/
def currentPeriod (s : Sys) : Period :=
  ((s.profiles.getD s.current_profile.toNat defaultProfile).periods.getD
    s.current_edit_period_index.toNat defaultPeriod)

/-- Writing back `profiles[current_profile].periods[current_edit_period_index]`. -/
def setCurrentPeriod (s : Sys) (per : Period) : Sys :=
  let prof := s.profiles.getD s.current_profile.toNat defaultProfile
  let prof2 := { prof with periods := prof.periods.set s.current_edit_period_index.toNat per }
  { s with profiles := s.profiles.set s.current_profile.toNat prof2 }

/-- Runs `app_calculate_state()` against the globals and stores the result
into `current_app_state`, returning the change flag. -/
def runCalc (nowUs : Nat) (s : Sys) : Sys × Bool :=
  ({ s with current_app_state :=
      (app_calculate_state nowUs s.app_start_time s.app_start_time_without_shift
        (s.profiles.getD s.current_profile.toNat defaultProfile) s.current_app_state).1 },
   (app_calculate_state nowUs s.app_start_time s.app_start_time_without_shift
        (s.profiles.getD s.current_profile.toNat defaultProfile) s.current_app_state).2)

/-- `app_encoder_show_profile` (src/app.c lines 958-986).  The second
component records whether `app_redraw()` was called. -/
def app_encoder_show_profile (delta : Int) (s : Sys) : Sys × Bool :=
  if s.menu_profile_index + delta < 0 then
    ({ s with current_app_mode := .topMenu, current_top_menu_action := .shift }, true)
  else
    let np := if s.menu_profile_index + delta ≥ 5 then 0 else s.menu_profile_index + delta
    let s1 := if np ≠ s.menu_profile_index then { s with menu_profile_index := np } else s
    if s1.menu_profile_index ≠ s1.current_profile then
      ({ s1 with current_app_mode := .showProfile }, true)
    else
      ({ s1 with current_app_mode := .showState }, true)

/-- `app_encoder_edit_profile` (src/app.c lines 998-1014). -/
def app_encoder_edit_profile (delta : Int) (s : Sys) : Sys × Bool :=
  let ni0 := s.current_edit_period_index + delta
  let ni := if ni0 < -1 then 5 else if ni0 ≥ 6 then -1 else ni0
  if ni ≠ s.current_edit_period_index then
    ({ s with current_edit_period_index := ni }, true)
  else (s, false)

/-- `app_encoder_edit_duration` (src/app.c lines 1026-1043). -/
def app_encoder_edit_duration (delta : Int) (s : Sys) : Sys × Bool :=
  let nd0 := (currentPeriod s).duration + delta * 60
  let nd := if nd0 < 0 then 0 else if nd0 > 24 * 60 then 24 * 60 else nd0
  if nd ≠ (currentPeriod s).duration then
    (setCurrentPeriod s { currentPeriod s with duration := nd }, true)
  else (s, false)

/-- `app_encoder_edit_period` (src/app.c lines 1056-1072). -/
def app_encoder_edit_period (delta : Int) (s : Sys) : Sys × Bool :=
  let nv0 := (s.current_edit_value).toInt + delta
  let nv := if nv0 < 0 then 3 else if nv0 > 3 then 0 else nv0
  if nv ≠ (s.current_edit_value).toInt then
    ({ s with current_edit_value := EditMode.ofInt nv }, true)
  else (s, false)

/-- `app_encoder_edit_white_red_level` (src/app.c lines 1083-1101): edits
the stored power (redraw only on change) and then unconditionally writes
the live preview into `current_app_state` and pushes it to the actuator. -/
def app_encoder_edit_white_red_level (delta : Int) (s : Sys) : Sys × Bool :=
  let nl0 := (currentPeriod s).led_white_red_power + delta * 5
  let nl := if nl0 < 0 then 0 else if nl0 > 100 then 100 else nl0
  let pair :=
    if nl ≠ (currentPeriod s).led_white_red_power then
      (setCurrentPeriod s { currentPeriod s with led_white_red_power := nl }, true)
    else (s, false)
  ({ pair.1 with current_app_state := { pair.1.current_app_state with white_red := nl } },
   pair.2)

/-- `app_encoder_edit_blue_level` (src/app.c lines 1113-1131). -/
def app_encoder_edit_blue_level (delta : Int) (s : Sys) : Sys × Bool :=
  let nl0 := (currentPeriod s).led_blue_power + delta * 5
  let nl := if nl0 < 0 then 0 else if nl0 > 100 then 100 else nl0
  let pair :=
    if nl ≠ (currentPeriod s).led_blue_power then
      (setCurrentPeriod s { currentPeriod s with led_blue_power := nl }, true)
    else (s, false)
  ({ pair.1 with current_app_state := { pair.1.current_app_state with blue := nl } },
   pair.2)

/-- `app_encoder_top_menu` (src/app.c lines 1145-1168). -/
def app_encoder_top_menu (delta : Int) (s : Sys) : Sys × Bool :=
  let na := (s.current_top_menu_action).toInt + delta
  if na < 0 then
    let s1 := { s with menu_profile_index := 0 }
    if s1.menu_profile_index ≠ s1.current_profile then
      ({ s1 with current_app_mode := .showProfile }, true)
    else
      ({ s1 with current_app_mode := .showState }, true)
  else if na > 3 then
    ({ s with current_top_menu_action := .shift }, true)
  else
    ({ s with current_top_menu_action := TopMenuAction.ofInt na }, true)

/-- `app_encoder_time_shift` (src/app.c lines 1179-1194). -/
def app_encoder_time_shift (delta : Int) (s : Sys) : Sys × Bool :=
  let ns0 := s.time_shift_hours + delta
  let ns := if ns0 < -23 then -23 else if ns0 > 23 then 23 else ns0
  if ns ≠ s.time_shift_hours then
    ({ s with time_shift_hours := ns }, true)
  else (s, false)

/-- `app_on_encoder_change` (src/app.c lines 1205-1244): records the input
time and dispatches on the mode.  The second component records whether a
redraw was requested. -/
def app_on_encoder_change (delta : Int) (nowUs : Nat) (s : Sys) : Sys × Bool :=
  if delta = 0 then (s, false)
  else
    let s1 := { s with last_encoder_time := nowUs }
    match s1.current_app_mode with
    | .showProfile => app_encoder_show_profile delta s1
    | .showState => app_encoder_show_profile delta s1
    | .editProfile => app_encoder_edit_profile delta s1
    | .editPeriod => app_encoder_edit_period delta s1
    | .editDuration => app_encoder_edit_duration delta s1
    | .editWrLevel => app_encoder_edit_white_red_level delta s1
    | .editBlLevel => app_encoder_edit_blue_level delta s1
    | .topMenu => app_encoder_top_menu delta s1
    | .timeShift => app_encoder_time_shift delta s1

/-- `app_save_profiles` (src/app.c lines 838-862): serializes the magic
marker, the active index and the profile array into the flash region,
then resyncs the menu index and returns to `ShowState`. -/
def app_save_profiles (s : Sys) : Sys :=
  { s with flash := .data s.current_profile s.profiles,
           menu_profile_index := s.current_profile,
           current_app_mode := .showState }

/-- `app_reload_profiles` (src/app.c lines 879-911): if the magic marker
does not match, return with every global untouched; otherwise load the
index and profiles, reset an out-of-range index to 0, resync the menu
index and force `ShowState`. -/
def app_reload_profiles (s : Sys) : Sys :=
  match s.flash with
  | .noMagic => s
  | .data idx profs =>
    let cp := if idx < 0 ∨ idx ≥ 5 then 0 else idx
    { s with profiles := profs, current_profile := cp,
             menu_profile_index := cp, current_app_mode := .showState }

/-- `app_on_click` (src/app.c lines 1258-1362).  `TOP_MENU_FLASH` hands
off to the bootloader and never returns, so it is modelled as leaving the
state unchanged. -/
def app_on_click (nowUs : Nat) (s : Sys) : Sys :=
  let s1 := { s with last_encoder_time := nowUs }
  match s1.current_app_mode with
  | .showProfile =>
    if s1.menu_profile_index ≠ s1.current_profile then
      (runCalc nowUs { s1 with current_profile := s1.menu_profile_index,
                               current_app_mode := .showState }).1
    else s1
  | .showState =>
    { s1 with current_edit_period_index := -1, current_app_mode := .editProfile }
  | .editProfile =>
    if s1.current_edit_period_index = -1 then
      { s1 with current_app_mode := .showState }
    else
      { s1 with current_app_mode := .editPeriod, current_edit_value := .back,
                current_app_state :=
                  { s1.current_app_state with
                      white_red := (currentPeriod s1).led_white_red_power,
                      blue := (currentPeriod s1).led_blue_power } }
  | .editPeriod =>
    match s1.current_edit_value with
    | .back => { s1 with current_app_mode := .editProfile }
    | .wrLevel => { s1 with current_app_mode := .editWrLevel }
    | .blLevel => { s1 with current_app_mode := .editBlLevel }
    | .duration => { s1 with current_app_mode := .editDuration }
  | .editDuration => { s1 with current_app_mode := .editPeriod }
  | .editWrLevel => { s1 with current_app_mode := .editPeriod }
  | .editBlLevel => { s1 with current_app_mode := .editPeriod }
  | .topMenu =>
    match s1.current_top_menu_action with
    | .save => app_save_profiles s1
    | .reload => app_reload_profiles s1
    | .flashAction => s1
    | .shift => { s1 with time_shift_hours := 0, current_app_mode := .timeShift }
  | .timeShift =>
    let s2 := { s1 with current_app_mode := .topMenu }
    if s2.time_shift_hours ≠ 0 then
      (runCalc nowUs
        { s2 with app_start_time :=
            (s2.app_start_time +
              (s2.time_shift_hours % (2 ^ 64 : Int)).toNat * 3600000000) % 2 ^ 64 }).1
    else s2

/-- `app_tick` (src/app.c lines 923-943).  The idle check compares the
`uint64_t` microsecond difference against `10000 * 6000`, i.e.
60 000 000 us. -/
def app_tick (nowUs : Nat) (s : Sys) : Sys :=
  let s1 :=
    if u64sub nowUs s.last_encoder_time > 10000 * 6000 ∧ s.current_app_mode ≠ .showState then
      { s with current_app_mode := .showState, menu_profile_index := s.current_profile }
    else s
  if s1.current_app_mode = .showState then (runCalc nowUs s1).1 else s1

/-- The static initial values of the globals (before `app_init` runs),
with the given flash contents and boot time `t0`. -/
def initSys (flash : FlashRegion) (t0 : Nat) : Sys :=
  { profiles := defaultProfiles, current_profile := 0,
    app_start_time := t0, app_start_time_without_shift := t0,
    last_encoder_time := 0, current_app_state := initialAppState,
    current_app_mode := .showState, menu_profile_index := 0,
    current_edit_period_index := 0, current_edit_value := .back,
    current_top_menu_action := .save, time_shift_hours := 0, flash := flash }

/-- `app_init` (src/app.c lines 249-288): reset the profile index and the
clock baselines, load profiles from flash (no UI), then run one tick. -/
def app_init (flash : FlashRegion) (t0 : Nat) : Sys :=
  app_tick t0 (app_reload_profiles (initSys flash t0))

/-- States reachable from a cold start by any sequence of encoder
rotations, clicks and periodic ticks. -/
inductive Reachable : Sys → Prop where
  | init (flash : FlashRegion) (t0 : Nat) : Reachable (app_init flash t0)
  | rotate {s : Sys} (delta : Int) (nowUs : Nat) :
      Reachable s → Reachable (app_on_encoder_change delta nowUs s).1
  | click {s : Sys} (nowUs : Nat) : Reachable s → Reachable (app_on_click nowUs s)
  | tick {s : Sys} (nowUs : Nat) : Reachable s → Reachable (app_tick nowUs s)

/-- Index-safety invariant of the navigation state machine:
`current_edit_period_index` stays in `[-1, 5]`, and in the four
period-editing modes it is never the BACK value `-1`. -/
def EditIdxInv (s : Sys) : Prop :=
  -1 ≤ s.current_edit_period_index ∧ s.current_edit_period_index ≤ 5 ∧
  ((s.current_app_mode = .editPeriod ∨ s.current_app_mode = .editDuration ∨
    s.current_app_mode = .editWrLevel ∨ s.current_app_mode = .editBlLevel) →
    0 ≤ s.current_edit_period_index)

instance (s : Sys) : Decidable (EditIdxInv s) := by
  unfold EditIdxInv; infer_instance

lemma u32ofInt_intOfU32 (n : Nat) (h : n < 2 ^ 32) : u32ofInt (intOfU32 n) = n := by
  unfold u32ofInt intOfU32
  split <;> omega

lemma u32ofInt_ofNat (x : Int) (h0 : 0 ≤ x) (h1 : x < 2 ^ 32) : u32ofInt x = x.toNat := by
  unfold u32ofInt
  omega

lemma intOfU32_small (n : Nat) (h : n < 2 ^ 31) : intOfU32 n = (n : Int) := by
  unfold intOfU32
  omega

lemma lightWalk_pump (l : List (Nat × Period)) :
    ∀ (elapsed msm : Nat) (s : AppState) (ret : Bool),
      (lightWalk l elapsed msm s ret).1.pump = s.pump ∧
      (lightWalk l elapsed msm s ret).1.pump_minutes_left = s.pump_minutes_left := by
  induction l with
  | nil =>
    intro e m s ret
    simp only [lightWalk]
    split <;> simp
  | cons hd tl ih =>
    obtain ⟨i, p⟩ := hd
    intro e m s ret
    simp only [lightWalk]
    split
    · exact ih e m s ret
    · split
      · split <;> simp
      · exact ih _ m s ret

lemma pumpStep_light (c : Nat) (s : AppState) :
    (pumpStep c s).1.white_red = s.white_red ∧ (pumpStep c s).1.blue = s.blue ∧
    (pumpStep c s).1.period_minutes_left = s.period_minutes_left ∧
    (pumpStep c s).1.period_index = s.period_index := by
  unfold pumpStep
  split_ifs <;> simp

lemma pumpStep_post (c : Nat) (s : AppState) :
    (pumpStep c s).1.pump = decide (c < 5) ∧
    (pumpStep c s).1.pump_minutes_left =
      intOfU32 (if c < 5 then (5 + 2 ^ 32 - c) % 2 ^ 32 else (35 + 2 ^ 32 - c) % 2 ^ 32) := by
  unfold pumpStep
  split_ifs <;> simp_all

lemma pumpStep_stable (c : Nat) (s t : AppState)
    (h1 : t.pump = (pumpStep c s).1.pump)
    (h2 : t.pump_minutes_left = (pumpStep c s).1.pump_minutes_left) :
    pumpStep c t = (t, false) := by
  obtain ⟨hp, hl⟩ := pumpStep_post c s
  rw [hp] at h1
  rw [hl] at h2
  have h5 : (5 + 2 ^ 32 - c) % 2 ^ 32 < 2 ^ 32 := Nat.mod_lt _ (by norm_num)
  have h35 : (35 + 2 ^ 32 - c) % 2 ^ 32 < 2 ^ 32 := Nat.mod_lt _ (by norm_num)
  obtain ⟨pi, wr, bl, pu, pml, pdl⟩ := t
  simp only at h1 h2
  unfold pumpStep
  by_cases hc : c < 5
  · have hpu : pu = true := by rw [h1]; simp [hc]
    rw [if_pos hc] at h2
    subst hpu
    subst h2
    simp [hc]
    exact u32ofInt_intOfU32 _ h5
  · have hpu : pu = false := by rw [h1]; simp [hc]
    rw [if_neg hc] at h2
    subst hpu
    subst h2
    simp [hc]
    exact u32ofInt_intOfU32 _ h35

lemma lightWalk_stable (l : List (Nat × Period)) :
    ∀ (elapsed msm : Nat) (s : AppState) (ret : Bool) (t : AppState),
      t.white_red = (lightWalk l elapsed msm s ret).1.white_red →
      t.blue = (lightWalk l elapsed msm s ret).1.blue →
      t.period_minutes_left = (lightWalk l elapsed msm s ret).1.period_minutes_left →
      t.period_index = (lightWalk l elapsed msm s ret).1.period_index →
      lightWalk l elapsed msm t false = (t, false) := by
  induction l with
  | nil =>
    intro e m s ret t h1 h2 h3 h4
    simp only [lightWalk] at *
    by_cases hcond : s.white_red ≠ 0 ∨ s.blue ≠ 0 ∨ s.period_minutes_left ≠ 0
    · rw [if_pos hcond] at h1 h2 h3 h4
      simp only at h1 h2 h3
      rw [if_neg (by simp [h1, h2, h3])]
    · rw [if_neg hcond] at h1 h2 h3 h4
      push_neg at hcond
      simp only at h1 h2 h3
      rw [if_neg (by simp [h1, h2, h3, hcond.1, hcond.2.1, hcond.2.2])]
  | cons hd tl ih =>
    obtain ⟨i, p⟩ := hd
    intro e m s ret t h1 h2 h3 h4
    simp only [lightWalk] at *
    by_cases hz : p.duration = 0
    · rw [if_pos hz] at h1 h2 h3 h4 ⊢
      exact ih e m s ret t h1 h2 h3 h4
    · rw [if_neg hz] at h1 h2 h3 h4 ⊢
      by_cases hin : m < (e + u32ofInt p.duration) % 2 ^ 32
      · rw [if_pos hin] at h1 h2 h3 h4 ⊢
        have hlt : ((e + u32ofInt p.duration) % 2 ^ 32 + 2 ^ 32 - m) % 2 ^ 32 < 2 ^ 32 :=
          Nat.mod_lt _ (by norm_num)
        by_cases hch : s.white_red ≠ p.led_white_red_power ∨ s.blue ≠ p.led_blue_power ∨
            u32ofInt s.period_minutes_left ≠
              ((e + u32ofInt p.duration) % 2 ^ 32 + 2 ^ 32 - m) % 2 ^ 32 ∨
            s.period_index ≠ (i : Int)
        · rw [if_pos hch] at h1 h2 h3 h4
          simp only at h1 h2 h3 h4
          rw [if_neg (by simp [h1, h2, h3, h4]; exact u32ofInt_intOfU32 _ hlt)]
        · rw [if_neg hch] at h1 h2 h3 h4
          push_neg at hch
          simp only at h1 h2 h3 h4
          rw [if_neg (by simp [h1, h2, h3, h4, hch.1, hch.2.1, hch.2.2.1, hch.2.2.2])]
      · rw [if_neg hin] at h1 h2 h3 h4 ⊢
        exact ih _ m s ret t h1 h2 h3 h4

/-- C8: evaluation is idempotent in its change flag: re-running
`app_calculate_state` at the same evaluation time, with the same clock
baselines and unchanged profile contents, on the output state it just
produced, returns `changed = false`. -/
theorem c8_evaluate_idempotent (nowUs startUs startNsUs : Nat) (prof : Profile)
    (s : AppState) :
    (app_calculate_state nowUs startUs startNsUs prof
      ((app_calculate_state nowUs startUs startNsUs prof s).1)).2 = false := by
  unfold app_calculate_state
  by_cases ht : profileTotalMinutes prof = 0
  · rw [if_pos ht, if_pos ht]
    by_cases hch : s.white_red ≠ 0 ∨ s.blue ≠ 0
    · rw [if_pos hch]
      simp
    · rw [if_neg hch]
      push_neg at hch
      simp [hch.1, hch.2]
  · rw [if_neg ht, if_neg ht]
    set c := minutesSinceU32 nowUs startNsUs % 35 with hc
    set msm := lightPosition nowUs startUs (profileTotalMinutes prof) with hmsm
    set l := enumPeriods 0 prof.periods with hl
    set r1 := lightWalk l 0 msm (pumpStep c s).1 (pumpStep c s).2 with hr1
    have hpump := lightWalk_pump l 0 msm (pumpStep c s).1 (pumpStep c s).2
    have hstab : pumpStep c r1.1 = (r1.1, false) :=
      pumpStep_stable c s r1.1 (by rw [hr1]; exact hpump.1) (by rw [hr1]; exact hpump.2)
    rw [hstab]
    rw [lightWalk_stable l 0 msm (pumpStep c s).1 (pumpStep c s).2 r1.1 rfl rfl rfl rfl]

lemma calc_pump_fields (nowUs startUs startNsUs : Nat) (prof : Profile) (s : AppState)
    (htot : profileTotalMinutes prof ≠ 0) :
    ((app_calculate_state nowUs startUs startNsUs prof s).1.pump =
      decide (minutesSinceU32 nowUs startNsUs % 35 < 5)) ∧
    ((app_calculate_state nowUs startUs startNsUs prof s).1.pump_minutes_left =
      if minutesSinceU32 nowUs startNsUs % 35 < 5 then
        ((5 - minutesSinceU32 nowUs startNsUs % 35 : Nat) : Int)
      else ((35 - minutesSinceU32 nowUs startNsUs % 35 : Nat) : Int)) := by
  unfold app_calculate_state
  rw [if_neg htot]
  set c := minutesSinceU32 nowUs startNsUs % 35 with hcdef
  have hc35 : c < 35 := Nat.mod_lt _ (by norm_num)
  obtain ⟨hwpu, hwpl⟩ :=
    lightWalk_pump (enumPeriods 0 prof.periods) 0
      (lightPosition nowUs startUs (profileTotalMinutes prof)) (pumpStep c s).1 (pumpStep c s).2
  rw [hwpu, hwpl]
  obtain ⟨hpu, hpl⟩ := pumpStep_post c s
  rw [hpu, hpl]
  refine ⟨rfl, ?_⟩
  by_cases h5 : c < 5
  · rw [if_pos h5, if_pos h5]
    have hv : (5 + 2 ^ 32 - c) % 2 ^ 32 = 5 - c := by omega
    rw [hv, intOfU32_small _ (by omega)]
  · rw [if_neg h5, if_neg h5]
    have hv : (35 + 2 ^ 32 - c) % 2 ^ 32 = 35 - c := by omega
    rw [hv, intOfU32_small _ (by omega)]

/-- C1 (amended): for every profile whose computed total duration is
non-zero, the pump output depends only on the boot-relative time measured
from the unshifted baseline: the pump is on with `5 - c` minutes left when
`c = minutesSinceBoot % 35 < 5`, off with `35 - c` minutes left otherwise,
and neither the profile contents nor the shiftable baseline (a TimeShift)
can alter the computed pump fields.  (The original claim quantified over
every profile; it fails for profiles with total duration 0, whose early
return skips the pump block, see the counterexample.) -/
theorem c1_pump_cadence_amended (nowUs startUs startNsUs : Nat) (prof : Profile)
    (s : AppState) (htot : profileTotalMinutes prof ≠ 0) :
    ((app_calculate_state nowUs startUs startNsUs prof s).1.pump =
      decide (minutesSinceU32 nowUs startNsUs % 35 < 5)) ∧
    ((app_calculate_state nowUs startUs startNsUs prof s).1.pump_minutes_left =
      if minutesSinceU32 nowUs startNsUs % 35 < 5 then
        ((5 - minutesSinceU32 nowUs startNsUs % 35 : Nat) : Int)
      else ((35 - minutesSinceU32 nowUs startNsUs % 35 : Nat) : Int)) ∧
    (∀ (startUs2 : Nat) (prof2 : Profile), profileTotalMinutes prof2 ≠ 0 →
      (app_calculate_state nowUs startUs2 startNsUs prof2 s).1.pump =
        (app_calculate_state nowUs startUs startNsUs prof s).1.pump ∧
      (app_calculate_state nowUs startUs2 startNsUs prof2 s).1.pump_minutes_left =
        (app_calculate_state nowUs startUs startNsUs prof s).1.pump_minutes_left) := by
  obtain ⟨h1, h2⟩ := calc_pump_fields nowUs startUs startNsUs prof s htot
  refine ⟨h1, h2, ?_⟩
  intro startUs2 prof2 htot2
  obtain ⟨g1, g2⟩ := calc_pump_fields nowUs startUs2 startNsUs prof2 s htot2
  exact ⟨by rw [g1, h1], by rw [g2, h2]⟩

/-- C1 counterexample: at boot (`c = 0 < 5`) the claim demands the pump
be reported on with 5 minutes left for EVERY profile, but for an
all-zero-duration profile the early `lightTotal == 0` return skips the
pump block and the pump stays off with 0 minutes left. -/
theorem c1_pump_cadence_counterexample :
    minutesSinceU32 0 0 % 35 < 5 ∧
    ¬ ((app_calculate_state 0 0 0 defaultProfile initialAppState).1.pump = true ∧
       (app_calculate_state 0 0 0 defaultProfile initialAppState).1.pump_minutes_left = 5) := by
  decide

/-- Witness for C1 at concrete inputs: the VEG factory profile, with the
independence conjunct instantiated at a shifted baseline and the FLOWER
profile. -/
theorem c1_pump_cadence_witness :
    profileTotalMinutes (defaultProfiles.getD 0 defaultProfile) ≠ 0 ∧
    profileTotalMinutes (defaultProfiles.getD 1 defaultProfile) ≠ 0 ∧
    ((app_calculate_state 123456789 55 77 (defaultProfiles.getD 0 defaultProfile)
        initialAppState).1.pump = decide (minutesSinceU32 123456789 77 % 35 < 5)) ∧
    ((app_calculate_state 123456789 999 77 (defaultProfiles.getD 1 defaultProfile)
        initialAppState).1.pump =
      (app_calculate_state 123456789 55 77 (defaultProfiles.getD 0 defaultProfile)
        initialAppState).1.pump) :=
  ⟨by decide, by decide,
   (c1_pump_cadence_amended 123456789 55 77 (defaultProfiles.getD 0 defaultProfile)
      initialAppState (by decide)).1,
   ((c1_pump_cadence_amended 123456789 55 77 (defaultProfiles.getD 0 defaultProfile)
      initialAppState (by decide)).2.2 999 (defaultProfiles.getD 1 defaultProfile)
      (by decide)).1⟩

/-- C3 (amended): when the computed total duration of the active profile
is zero, `evaluate` zeroes the two light powers, leaves the pump fields
untouched (the early return skips the pump block, so the output is NOT
"pump off"), and its change flag is true exactly when the previous
white-red or blue power was non-zero. -/
theorem c3_zero_total_amended (nowUs startUs startNsUs : Nat) (prof : Profile)
    (s : AppState) (htot : profileTotalMinutes prof = 0) :
    ((app_calculate_state nowUs startUs startNsUs prof s).1.white_red = 0) ∧
    ((app_calculate_state nowUs startUs startNsUs prof s).1.blue = 0) ∧
    ((app_calculate_state nowUs startUs startNsUs prof s).1.pump = s.pump) ∧
    ((app_calculate_state nowUs startUs startNsUs prof s).1.pump_minutes_left =
      s.pump_minutes_left) ∧
    ((app_calculate_state nowUs startUs startNsUs prof s).2 = true ↔
      (s.white_red ≠ 0 ∨ s.blue ≠ 0)) := by
  unfold app_calculate_state
  rw [if_pos htot]
  by_cases hch : s.white_red ≠ 0 ∨ s.blue ≠ 0
  · rw [if_pos hch]
    simpa using hch
  · rw [if_neg hch]
    push_neg at hch
    simp [hch.1, hch.2]

/-- C3 counterexample: with an all-zero-duration profile and a previous
output state whose pump is on, `evaluate` returns with the pump still on,
contradicting the claimed "pump off" output. -/
theorem c3_zero_total_counterexample :
    profileTotalMinutes defaultProfile = 0 ∧
    (app_calculate_state 0 0 0 defaultProfile ⟨0, 0, 0, true, 3, 0⟩).1.pump = true := by
  decide

/-- Witness for C3: the amended statement evaluated on the all-disabled
profile and the boot-time previous state. -/
theorem c3_zero_total_witness :
    profileTotalMinutes defaultProfile = 0 ∧
    ((app_calculate_state 5 0 0 defaultProfile initialAppState).1.white_red = 0) ∧
    ((app_calculate_state 5 0 0 defaultProfile initialAppState).1.blue = 0) ∧
    ((app_calculate_state 5 0 0 defaultProfile initialAppState).1.pump =
      initialAppState.pump) ∧
    ((app_calculate_state 5 0 0 defaultProfile initialAppState).1.pump_minutes_left =
      initialAppState.pump_minutes_left) ∧
    ((app_calculate_state 5 0 0 defaultProfile initialAppState).2 = true ↔
      (initialAppState.white_red ≠ 0 ∨ initialAppState.blue ≠ 0)) :=
  ⟨by decide, c3_zero_total_amended 5 0 0 defaultProfile initialAppState (by decide)⟩

/-- C2 (code bug): the idle-timeout threshold is written `10000 * 6000`
microseconds, i.e. 60 seconds, although the code's own comments (and the
spec) say 10 seconds.  At 11 seconds of idle time in `EditDuration` the
tick leaves the state completely unchanged; only past 60 seconds does it
force `ShowState` and resync `menuProfileIndex`, keeping the profile
contents (and hence every committed edit) intact. -/
theorem c2_idle_timeout_bug :
    app_tick 11000000 { initSys .noMagic 0 with current_app_mode := .editDuration } =
      { initSys .noMagic 0 with current_app_mode := .editDuration } ∧
    (app_tick 60000001 { initSys .noMagic 0 with
        current_app_mode := .editDuration }).current_app_mode = .showState ∧
    (app_tick 60000001 { initSys .noMagic 0 with
        current_app_mode := .editDuration }).menu_profile_index =
      (initSys .noMagic 0).current_profile ∧
    (app_tick 60000001 { initSys .noMagic 0 with
        current_app_mode := .editDuration }).profiles = (initSys .noMagic 0).profiles := by
  decide

/-- C5: persistence round-trip: saving and then loading returns exactly
the saved profiles and active index whenever the index is in range, and
a stored out-of-range index is reset to 0 by the load. -/
theorem c5_save_load_roundtrip :
    (∀ s : Sys, 0 ≤ s.current_profile → s.current_profile < 5 →
      (app_reload_profiles (app_save_profiles s)).profiles = s.profiles ∧
      (app_reload_profiles (app_save_profiles s)).current_profile = s.current_profile) ∧
    (∀ (s : Sys) (idx : Int) (profs : List Profile),
      s.flash = .data idx profs → (idx < 0 ∨ idx ≥ 5) →
      (app_reload_profiles s).current_profile = 0 ∧
      (app_reload_profiles s).profiles = profs) := by
  constructor
  · intro s h0 h5
    unfold app_save_profiles app_reload_profiles
    simp only
    rw [if_neg (by omega)]
    simp
  · intro s idx profs hf hrange
    unfold app_reload_profiles
    rw [hf]
    simp only
    rw [if_pos hrange]
    simp

/-- Witness for C5: round trip of the factory state, and index reset for
a region storing index 9. -/
theorem c5_save_load_roundtrip_witness :
    (0 ≤ (initSys .noMagic 0).current_profile ∧ (initSys .noMagic 0).current_profile < 5 ∧
     (app_reload_profiles (app_save_profiles (initSys .noMagic 0))).profiles =
       (initSys .noMagic 0).profiles ∧
     (app_reload_profiles (app_save_profiles (initSys .noMagic 0))).current_profile =
       (initSys .noMagic 0).current_profile) ∧
    ((initSys (.data 9 defaultProfiles) 0).flash = .data 9 defaultProfiles ∧
     (app_reload_profiles (initSys (.data 9 defaultProfiles) 0)).current_profile = 0) :=
  ⟨⟨by decide, by decide,
    (c5_save_load_roundtrip.1 (initSys .noMagic 0) (by decide) (by decide)).1,
    (c5_save_load_roundtrip.1 (initSys .noMagic 0) (by decide) (by decide)).2⟩,
   ⟨rfl,
    (c5_save_load_roundtrip.2 (initSys (.data 9 defaultProfiles) 0) 9 defaultProfiles rfl
      (by decide)).1⟩⟩

/-- C10: reload is atomic on failure: with no magic marker in flash the
reload leaves every global unchanged (in particular a failed RELOAD click
from the top menu only records the input time and stays in `TopMenu`),
while a successful load overwrites the profiles, resyncs
`menuProfileIndex` to the new active index and forces `ShowState`. -/
theorem c10_reload_atomic_on_failure :
    (∀ s : Sys, s.flash = .noMagic → app_reload_profiles s = s) ∧
    (∀ (s : Sys) (idx : Int) (profs : List Profile), s.flash = .data idx profs →
      (app_reload_profiles s).profiles = profs ∧
      (app_reload_profiles s).current_app_mode = .showState ∧
      (app_reload_profiles s).menu_profile_index = (app_reload_profiles s).current_profile) ∧
    (∀ (s : Sys) (nowUs : Nat), s.current_app_mode = .topMenu →
      s.current_top_menu_action = .reload → s.flash = .noMagic →
      app_on_click nowUs s = { s with last_encoder_time := nowUs }) := by
  refine ⟨?_, ?_, ?_⟩
  · intro s h
    unfold app_reload_profiles
    rw [h]
  · intro s idx profs h
    unfold app_reload_profiles
    rw [h]
    simp
  · intro s nowUs h1 h2 h3
    unfold app_on_click
    simp only [h1, h2]
    unfold app_reload_profiles
    simp only [h3]

/-- Witness for C10: the three conjuncts evaluated at concrete states
(no-magic flash; a stored region with index 2; a RELOAD click from the
top menu over an empty region). -/
theorem c10_reload_atomic_on_failure_witness :
    (app_reload_profiles (initSys .noMagic 0) = initSys .noMagic 0) ∧
    ((app_reload_profiles (initSys (.data 2 defaultProfiles) 0)).profiles =
      defaultProfiles) ∧
    (app_on_click 5
        { initSys .noMagic 0 with
            current_app_mode := .topMenu
            current_top_menu_action := .reload } =
      { initSys .noMagic 0 with
          current_app_mode := .topMenu
          current_top_menu_action := .reload
          last_encoder_time := 5 }) :=
  ⟨c10_reload_atomic_on_failure.1 (initSys .noMagic 0) rfl,
   (c10_reload_atomic_on_failure.2.1 (initSys (.data 2 defaultProfiles) 0) 2
      defaultProfiles rfl).1,
   c10_reload_atomic_on_failure.2.2 _ 5 rfl rfl rfl⟩

lemma EditMode.toInt_ofInt (n : Int) (h0 : 0 ≤ n) (h3 : n ≤ 3) :
    (EditMode.ofInt n).toInt = n := by
  unfold EditMode.ofInt
  split_ifs <;> simp [EditMode.toInt] <;> omega

lemma EditMode.ofInt_ne (n : Int) (h0 : 0 ≤ n) (h3 : n ≤ 3) (e : EditMode)
    (h : n ≠ e.toInt) : EditMode.ofInt n ≠ e := by
  intro hEq
  apply h
  rw [← hEq, EditMode.toInt_ofInt n h0 h3]

lemma list_getD_set_self {α : Type _} (l : List α) (n : Nat) (a d : α) (h : n < l.length) :
    (l.set n a).getD n d = a := by
  rw [List.getD_eq_getElem _ _ (by simpa using h)]
  exact List.getElem_set_self _

lemma currentPeriod_set (s : Sys) (per : Period)
    (h1 : s.current_profile.toNat < s.profiles.length)
    (h2 : s.current_edit_period_index.toNat <
      (s.profiles.getD s.current_profile.toNat defaultProfile).periods.length) :
    currentPeriod (setCurrentPeriod s per) = per := by
  unfold currentPeriod setCurrentPeriod
  simp only
  rw [list_getD_set_self _ _ _ _ h1]
  exact list_getD_set_self _ _ _ _ h2

lemma currentPeriod_setAppState (s : Sys) (a : AppState) :
    currentPeriod { s with current_app_state := a } = currentPeriod s := rfl

/-- C6 (amended): the rotation handlers for `EditProfile`, `EditPeriod`,
`EditDuration`, `EditWrLevel`, `EditBlLevel` and `TimeShift` request a
redraw exactly when the value they handle actually changes (a no-op
change triggers no redraw); the `ShowState`/`ShowProfile` and `TopMenu`
rotation handlers, however, call the redraw unconditionally, even for a
rotation that changes nothing (see the counterexample). -/
theorem c6_redraw_on_change :
    (∀ (delta : Int) (s : Sys),
      (app_encoder_edit_profile delta s).2 = true ↔
        (app_encoder_edit_profile delta s).1.current_edit_period_index ≠
          s.current_edit_period_index) ∧
    (∀ (delta : Int) (s : Sys),
      (app_encoder_edit_period delta s).2 = true ↔
        (app_encoder_edit_period delta s).1.current_edit_value ≠ s.current_edit_value) ∧
    (∀ (delta : Int) (s : Sys),
      s.current_profile.toNat < s.profiles.length →
      s.current_edit_period_index.toNat <
        (s.profiles.getD s.current_profile.toNat defaultProfile).periods.length →
      ((app_encoder_edit_duration delta s).2 = true ↔
        (currentPeriod (app_encoder_edit_duration delta s).1).duration ≠
          (currentPeriod s).duration)) ∧
    (∀ (delta : Int) (s : Sys),
      s.current_profile.toNat < s.profiles.length →
      s.current_edit_period_index.toNat <
        (s.profiles.getD s.current_profile.toNat defaultProfile).periods.length →
      ((app_encoder_edit_white_red_level delta s).2 = true ↔
        (currentPeriod (app_encoder_edit_white_red_level delta s).1).led_white_red_power ≠
          (currentPeriod s).led_white_red_power)) ∧
    (∀ (delta : Int) (s : Sys),
      s.current_profile.toNat < s.profiles.length →
      s.current_edit_period_index.toNat <
        (s.profiles.getD s.current_profile.toNat defaultProfile).periods.length →
      ((app_encoder_edit_blue_level delta s).2 = true ↔
        (currentPeriod (app_encoder_edit_blue_level delta s).1).led_blue_power ≠
          (currentPeriod s).led_blue_power)) ∧
    (∀ (delta : Int) (s : Sys),
      (app_encoder_time_shift delta s).2 = true ↔
        (app_encoder_time_shift delta s).1.time_shift_hours ≠ s.time_shift_hours) ∧
    (∀ (delta : Int) (s : Sys), (app_encoder_show_profile delta s).2 = true) ∧
    (∀ (delta : Int) (s : Sys), (app_encoder_top_menu delta s).2 = true) := by
  refine ⟨?_, ?_, ?_, ?_, ?_, ?_, ?_, ?_⟩
  · intro d s
    unfold app_encoder_edit_profile
    dsimp only
    split_ifs <;> simp_all
  · intro d s
    unfold app_encoder_edit_period
    dsimp only
    split_ifs <;>
      first
        | (simp_all; done)
        | (constructor <;> intro _ <;> (try dsimp only) <;>
            first
              | rfl
              | exact EditMode.ofInt_ne _ (by omega) (by omega) _ (by omega))
  · intro d s h1 h2
    unfold app_encoder_edit_duration
    dsimp only
    split_ifs <;> (try rw [currentPeriod_set s _ h1 h2]) <;> simp_all
  · intro d s h1 h2
    unfold app_encoder_edit_white_red_level
    dsimp only
    split_ifs <;> dsimp only <;> rw [currentPeriod_setAppState] <;>
      (try rw [currentPeriod_set s _ h1 h2]) <;> simp_all
  · intro d s h1 h2
    unfold app_encoder_edit_blue_level
    dsimp only
    split_ifs <;> dsimp only <;> rw [currentPeriod_setAppState] <;>
      (try rw [currentPeriod_set s _ h1 h2]) <;> simp_all
  · intro d s
    unfold app_encoder_time_shift
    dsimp only
    split_ifs <;> simp_all
  · intro d s
    unfold app_encoder_show_profile
    dsimp only
    split_ifs <;> rfl
  · intro d s
    unfold app_encoder_top_menu
    dsimp only
    split_ifs <;> rfl

/-- C6 counterexample: in the top menu on SHIFT, a rotation by +4 wraps
the action back to SHIFT: the whole state is unchanged (the event even
records the same input timestamp), yet a redraw is requested,
contradicting the claim that a no-op rotation never triggers a redraw. -/
theorem c6_redraw_counterexample :
    (app_on_encoder_change 4 0
      { initSys .noMagic 0 with
          current_app_mode := .topMenu
          current_top_menu_action := .shift }).1 =
      { initSys .noMagic 0 with
          current_app_mode := .topMenu
          current_top_menu_action := .shift } ∧
    (app_on_encoder_change 4 0
      { initSys .noMagic 0 with
          current_app_mode := .topMenu
          current_top_menu_action := .shift }).2 = true := by
  decide

/-- Witness for C6: the duration-edit conjunct at the factory state
(in-range profile and period indices), where a +1 rotation changes the
first VEG period from 840 to 900 minutes. -/
theorem c6_redraw_on_change_witness :
    ((initSys .noMagic 0).current_profile.toNat < (initSys .noMagic 0).profiles.length) ∧
    ((initSys .noMagic 0).current_edit_period_index.toNat <
      ((initSys .noMagic 0).profiles.getD (initSys .noMagic 0).current_profile.toNat
        defaultProfile).periods.length) ∧
    ((app_encoder_edit_duration 1 (initSys .noMagic 0)).2 = true ↔
      (currentPeriod (app_encoder_edit_duration 1 (initSys .noMagic 0)).1).duration ≠
        (currentPeriod (initSys .noMagic 0)).duration) :=
  ⟨by decide, by decide,
   c6_redraw_on_change.2.2.1 1 (initSys .noMagic 0) (by decide) (by decide)⟩

lemma durSum_nil : durSum [] = 0 := rfl

lemma durSum_cons (p : Period) (l : List Period) :
    durSum (p :: l) = p.duration.toNat + durSum l := rfl

lemma durSum_le (ps : List Period) (hv : ∀ p ∈ ps, 0 ≤ p.duration ∧ p.duration ≤ 1440) :
    durSum ps ≤ 1440 * ps.length := by
  induction ps with
  | nil => simp [durSum_nil]
  | cons p rest ih =>
    have hd := hv p (List.mem_cons_self p rest)
    have hr := ih (fun q hq => hv q (List.mem_cons_of_mem p hq))
    rw [durSum_cons, List.length_cons]
    omega

lemma foldlTotal_eq (ps : List Period) : ∀ (acc : Nat),
    (∀ p ∈ ps, 0 ≤ p.duration ∧ p.duration ≤ 1440) → acc + durSum ps < 2 ^ 32 →
    List.foldl (fun a per => (a + u32ofInt per.duration) % 2 ^ 32) acc ps =
      acc + durSum ps := by
  induction ps with
  | nil => intro acc _ _; simp [durSum_nil]
  | cons p rest ih =>
    intro acc hv hb
    have hd := hv p (List.mem_cons_self p rest)
    rw [durSum_cons] at hb
    have hu : u32ofInt p.duration = p.duration.toNat := u32ofInt_ofNat _ hd.1 (by omega)
    rw [List.foldl_cons, hu, Nat.mod_eq_of_lt (by omega)]
    rw [ih _ (fun q hq => hv q (List.mem_cons_of_mem p hq)) (by omega)]
    rw [durSum_cons]
    omega

lemma profileTotalMinutes_eq (prof : Profile)
    (hv : ∀ p ∈ prof.periods, 0 ≤ p.duration ∧ p.duration ≤ 1440)
    (hb : durSum prof.periods < 2 ^ 32) :
    profileTotalMinutes prof = durSum prof.periods := by
  unfold profileTotalMinutes
  simpa using foldlTotal_eq prof.periods 0 hv (by omega)

lemma lightWalk_spec (msm : Nat) (s : AppState) (ret : Bool) :
    ∀ (ps : List Period) (j elapsed : Nat),
      (∀ p ∈ ps, 0 ≤ p.duration ∧ p.duration ≤ 1440) →
      elapsed ≤ msm →
      msm < elapsed + durSum ps →
      elapsed + durSum ps < 2 ^ 31 →
      ∃ k, k < ps.length ∧ (ps.getD k defaultPeriod).duration ≠ 0 ∧
        elapsed + durSum (ps.take k) ≤ msm ∧
        msm < elapsed + durSum (ps.take (k + 1)) ∧
        (lightWalk (enumPeriods j ps) elapsed msm s ret).1.white_red =
          (ps.getD k defaultPeriod).led_white_red_power ∧
        (lightWalk (enumPeriods j ps) elapsed msm s ret).1.blue =
          (ps.getD k defaultPeriod).led_blue_power ∧
        (lightWalk (enumPeriods j ps) elapsed msm s ret).1.period_index =
          ((j + k : Nat) : Int) ∧
        (0 ≤ s.period_minutes_left → s.period_minutes_left < 2 ^ 32 →
          (lightWalk (enumPeriods j ps) elapsed msm s ret).1.period_minutes_left =
            ((elapsed + durSum (ps.take (k + 1)) : Nat) : Int) - (msm : Int)) := by
  intro ps
  induction ps with
  | nil =>
    intro j e hv h1 h2 h3
    rw [durSum_nil] at h2
    omega
  | cons p rest ih =>
    intro j e hv h1 h2 h3
    have hd := hv p (List.mem_cons_self p rest)
    have hrest : ∀ q ∈ rest, 0 ≤ q.duration ∧ q.duration ≤ 1440 :=
      fun q hq => hv q (List.mem_cons_of_mem p hq)
    rw [durSum_cons] at h2 h3
    by_cases hz : p.duration = 0
    · have hz0 : p.duration.toNat = 0 := by omega
      have hstep : lightWalk (enumPeriods j (p :: rest)) e msm s ret =
          lightWalk (enumPeriods (j + 1) rest) e msm s ret := by
        simp only [enumPeriods, lightWalk]
        rw [if_pos hz]
      obtain ⟨k, hk, hkd, hlow, hhigh, hwr, hbl, hidx, hpml⟩ :=
        ih (j + 1) e hrest h1 (by omega) (by omega)
      refine ⟨k + 1, by simpa using hk, by simpa using hkd, ?_, ?_, ?_, ?_, ?_, ?_⟩
      · rw [List.take_succ_cons, durSum_cons]
        omega
      · rw [List.take_succ_cons, durSum_cons]
        omega
      · rw [hstep, List.getD_cons_succ]
        exact hwr
      · rw [hstep, List.getD_cons_succ]
        exact hbl
      · rw [hstep, hidx]
        congr 1
        omega
      · intro hp0 hp1
        rw [hstep, hpml hp0 hp1, List.take_succ_cons, durSum_cons, hz0]
        omega
    · have hu : u32ofInt p.duration = p.duration.toNat := u32ofInt_ofNat _ hd.1 (by omega)
      have htn : 0 < p.duration.toNat := by omega
      have hpend : (e + u32ofInt p.duration) % 2 ^ 32 = e + p.duration.toNat := by
        rw [hu]
        exact Nat.mod_eq_of_lt (by omega)
      by_cases hin : msm < e + p.duration.toNat
      · have hvv : ((e + u32ofInt p.duration) % 2 ^ 32 + 2 ^ 32 - msm) % 2 ^ 32 =
            e + p.duration.toNat - msm := by
          rw [hpend]
          omega
        have hstep : lightWalk (enumPeriods j (p :: rest)) e msm s ret =
            if s.white_red ≠ p.led_white_red_power ∨ s.blue ≠ p.led_blue_power ∨
               u32ofInt s.period_minutes_left ≠
                 ((e + u32ofInt p.duration) % 2 ^ 32 + 2 ^ 32 - msm) % 2 ^ 32 ∨
               s.period_index ≠ (j : Int) then
              ({ s with
                   white_red := p.led_white_red_power,
                   blue := p.led_blue_power,
                   period_minutes_left :=
                     intOfU32 (((e + u32ofInt p.duration) % 2 ^ 32 + 2 ^ 32 - msm) % 2 ^ 32),
                   period_index := (j : Int) }, true)
            else (s, ret) := by
          simp only [enumPeriods, lightWalk]
          rw [if_neg hz, if_pos (by rw [hpend]; exact hin)]
        have htake : durSum ((p :: rest).take (0 + 1)) = p.duration.toNat := by
          rw [List.take_succ_cons, List.take_zero, durSum_cons, durSum_nil]
          omega
        refine ⟨0, by simp, by simpa [List.getD_cons_zero] using hz, ?_, ?_, ?_, ?_, ?_, ?_⟩
        · simpa [durSum_nil] using h1
        · rw [htake]
          omega
        · rw [hstep]
          by_cases hch : s.white_red ≠ p.led_white_red_power ∨ s.blue ≠ p.led_blue_power ∨
              u32ofInt s.period_minutes_left ≠
                ((e + u32ofInt p.duration) % 2 ^ 32 + 2 ^ 32 - msm) % 2 ^ 32 ∨
              s.period_index ≠ (j : Int)
          · rw [if_pos hch, List.getD_cons_zero]
          · rw [if_neg hch, List.getD_cons_zero]
            push_neg at hch
            exact hch.1
        · rw [hstep]
          by_cases hch : s.white_red ≠ p.led_white_red_power ∨ s.blue ≠ p.led_blue_power ∨
              u32ofInt s.period_minutes_left ≠
                ((e + u32ofInt p.duration) % 2 ^ 32 + 2 ^ 32 - msm) % 2 ^ 32 ∨
              s.period_index ≠ (j : Int)
          · rw [if_pos hch, List.getD_cons_zero]
          · rw [if_neg hch, List.getD_cons_zero]
            push_neg at hch
            exact hch.2.1
        · rw [hstep]
          by_cases hch : s.white_red ≠ p.led_white_red_power ∨ s.blue ≠ p.led_blue_power ∨
              u32ofInt s.period_minutes_left ≠
                ((e + u32ofInt p.duration) % 2 ^ 32 + 2 ^ 32 - msm) % 2 ^ 32 ∨
              s.period_index ≠ (j : Int)
          · rw [if_pos hch]
            simp
          · rw [if_neg hch]
            push_neg at hch
            simpa using hch.2.2.2
        · intro hp0 hp1
          rw [hstep]
          by_cases hch : s.white_red ≠ p.led_white_red_power ∨ s.blue ≠ p.led_blue_power ∨
              u32ofInt s.period_minutes_left ≠
                ((e + u32ofInt p.duration) % 2 ^ 32 + 2 ^ 32 - msm) % 2 ^ 32 ∨
              s.period_index ≠ (j : Int)
          · rw [if_pos hch]
            show intOfU32 (((e + u32ofInt p.duration) % 2 ^ 32 + 2 ^ 32 - msm) % 2 ^ 32) = _
            rw [hvv, intOfU32_small _ (by omega), htake]
            omega
          · rw [if_neg hch]
            push_neg at hch
            have h3eq := hch.2.2.1
            rw [hvv] at h3eq
            rw [u32ofInt_ofNat _ hp0 hp1] at h3eq
            show s.period_minutes_left = _
            rw [htake]
            omega
      · have hstep : lightWalk (enumPeriods j (p :: rest)) e msm s ret =
            lightWalk (enumPeriods (j + 1) rest) ((e + u32ofInt p.duration) % 2 ^ 32) msm s ret := by
          simp only [enumPeriods, lightWalk]
          rw [if_neg hz, if_neg (by rw [hpend]; exact hin)]
        rw [hpend] at hstep
        obtain ⟨k, hk, hkd, hlow, hhigh, hwr, hbl, hidx, hpml⟩ :=
          ih (j + 1) (e + p.duration.toNat) hrest (by omega) (by omega) (by omega)
        refine ⟨k + 1, by simpa using hk, by simpa using hkd, ?_, ?_, ?_, ?_, ?_, ?_⟩
        · rw [List.take_succ_cons, durSum_cons]
          omega
        · rw [List.take_succ_cons, durSum_cons]
          omega
        · rw [hstep, List.getD_cons_succ]
          exact hwr
        · rw [hstep, List.getD_cons_succ]
          exact hbl
        · rw [hstep, hidx]
          congr 1
          omega
        · intro hp0 hp1
          rw [hstep, hpml hp0 hp1, List.take_succ_cons, durSum_cons]
          congr 2
          omega

/-- C4: for every valid profile (6 period slots, durations in 0..1440)
with positive total and any previous output state with an in-range
remaining-minutes field, the engine selects the unique period (walking
the slots in order and skipping zero-duration slots) whose cumulative
window contains `minutesSinceStart = elapsedMinutes % lightTotal`, and
outputs its two power levels, its slot index, and
`periodMinutesLeft = periodEnd - minutesSinceStart`. -/
theorem c4_light_schedule_walk (nowUs startUs startNsUs : Nat) (prof : Profile)
    (s : AppState)
    (hv : ∀ p ∈ prof.periods, 0 ≤ p.duration ∧ p.duration ≤ 1440)
    (hlen : prof.periods.length = 6)
    (htot : 0 < durSum prof.periods)
    (hp0 : 0 ≤ s.period_minutes_left) (hp1 : s.period_minutes_left < 2 ^ 32) :
    ∃ k, k < 6 ∧ (prof.periods.getD k defaultPeriod).duration ≠ 0 ∧
      durSum (prof.periods.take k) ≤ minutesSinceU32 nowUs startUs % durSum prof.periods ∧
      minutesSinceU32 nowUs startUs % durSum prof.periods <
        durSum (prof.periods.take (k + 1)) ∧
      (app_calculate_state nowUs startUs startNsUs prof s).1.white_red =
        (prof.periods.getD k defaultPeriod).led_white_red_power ∧
      (app_calculate_state nowUs startUs startNsUs prof s).1.blue =
        (prof.periods.getD k defaultPeriod).led_blue_power ∧
      (app_calculate_state nowUs startUs startNsUs prof s).1.period_index = (k : Int) ∧
      (app_calculate_state nowUs startUs startNsUs prof s).1.period_minutes_left =
        ((durSum (prof.periods.take (k + 1)) : Nat) : Int) -
          ((minutesSinceU32 nowUs startUs % durSum prof.periods : Nat) : Int) := by
  have hb8640 : durSum prof.periods ≤ 8640 := by
    have := durSum_le prof.periods hv
    rw [hlen] at this
    omega
  have heq : profileTotalMinutes prof = durSum prof.periods :=
    profileTotalMinutes_eq prof hv (by omega)
  have htot2 : profileTotalMinutes prof ≠ 0 := by omega
  unfold app_calculate_state
  rw [if_neg htot2]
  have hm1 : minutesSinceU32 nowUs startUs % durSum prof.periods < durSum prof.periods :=
    Nat.mod_lt _ (by omega)
  have hlp : lightPosition nowUs startUs (profileTotalMinutes prof) =
      minutesSinceU32 nowUs startUs % durSum prof.periods := by
    unfold lightPosition
    rw [heq]
    by_cases hge : minutesSinceU32 nowUs startUs ≥ durSum prof.periods
    · rw [if_pos hge]
    · rw [if_neg hge]
      rw [Nat.mod_eq_of_lt (by omega)]
  rw [hlp]
  obtain ⟨hw1, hw2, hw3, hw4⟩ := pumpStep_light (minutesSinceU32 nowUs startNsUs % 35) s
  obtain ⟨k, hk, hkd, hlow, hhigh, hwr, hbl, hidx, hpml⟩ :=
    lightWalk_spec (minutesSinceU32 nowUs startUs % durSum prof.periods)
      (pumpStep (minutesSinceU32 nowUs startNsUs % 35) s).1
      (pumpStep (minutesSinceU32 nowUs startNsUs % 35) s).2
      prof.periods 0 0 hv (Nat.zero_le _) (by omega) (by omega)
  refine ⟨k, by omega, hkd, by simpa using hlow, by simpa using hhigh, hwr, hbl,
    by simpa using hidx, ?_⟩
  have := hpml (by rw [hw3]; exact hp0) (by rw [hw3]; exact hp1)
  rw [this]
  simp

/-- C7: for every valid profile with positive total, the period index the
engine reports is always the index of a slot with strictly positive
duration: the all-off fallback after the walk is unreachable, because
`minutesSinceStart % lightTotal` always falls inside the cumulative
window of some non-zero period. -/
theorem c7_period_index_positive_duration (nowUs startUs startNsUs : Nat)
    (prof : Profile) (s : AppState)
    (hv : ∀ p ∈ prof.periods, 0 ≤ p.duration ∧ p.duration ≤ 1440)
    (hlen : prof.periods.length = 6)
    (htot : 0 < durSum prof.periods) :
    ∃ k : Nat, k < 6 ∧
      (app_calculate_state nowUs startUs startNsUs prof s).1.period_index = (k : Int) ∧
      (prof.periods.getD k defaultPeriod).duration > 0 := by
  have hb8640 : durSum prof.periods ≤ 8640 := by
    have := durSum_le prof.periods hv
    rw [hlen] at this
    omega
  have heq : profileTotalMinutes prof = durSum prof.periods :=
    profileTotalMinutes_eq prof hv (by omega)
  have htot2 : profileTotalMinutes prof ≠ 0 := by omega
  unfold app_calculate_state
  rw [if_neg htot2]
  have hm1 : lightPosition nowUs startUs (profileTotalMinutes prof) < durSum prof.periods := by
    unfold lightPosition
    rw [heq]
    by_cases hge : minutesSinceU32 nowUs startUs ≥ durSum prof.periods
    · rw [if_pos hge]
      exact Nat.mod_lt _ (by omega)
    · rw [if_neg hge]
      omega
  obtain ⟨k, hk, hkd, hlow, hhigh, hwr, hbl, hidx, hpml⟩ :=
    lightWalk_spec (lightPosition nowUs startUs (profileTotalMinutes prof))
      (pumpStep (minutesSinceU32 nowUs startNsUs % 35) s).1
      (pumpStep (minutesSinceU32 nowUs startNsUs % 35) s).2
      prof.periods 0 0 hv (Nat.zero_le _) (by omega) (by omega)
  have hmem : prof.periods.getD k defaultPeriod ∈ prof.periods := by
    rw [List.getD_eq_getElem _ _ (by omega)]
    exact List.getElem_mem _
  have hkdur := hv _ hmem
  exact ⟨k, by omega, by simpa using hidx, by omega⟩

/-- Witness for C4: the spec scenario, periods `[480@(100,50), 960@(0,0)]`
(total 1440) at `minutesSinceStart = 500` (nowUs = 500 minutes after the
baseline): the engine reports periodIndex 1, whiteRed 0, blue 0 and
periodMinutesLeft 940. -/
theorem c4_light_schedule_walk_witness :
    (∀ p ∈ (Profile.mk "SCEN"
        [⟨480, 100, 50⟩, ⟨960, 0, 0⟩, ⟨0, 0, 0⟩, ⟨0, 0, 0⟩, ⟨0, 0, 0⟩, ⟨0, 0, 0⟩]).periods,
      0 ≤ p.duration ∧ p.duration ≤ 1440) ∧
    (Profile.mk "SCEN"
        [⟨480, 100, 50⟩, ⟨960, 0, 0⟩, ⟨0, 0, 0⟩, ⟨0, 0, 0⟩, ⟨0, 0, 0⟩,
          ⟨0, 0, 0⟩]).periods.length = 6 ∧
    0 < durSum (Profile.mk "SCEN"
        [⟨480, 100, 50⟩, ⟨960, 0, 0⟩, ⟨0, 0, 0⟩, ⟨0, 0, 0⟩, ⟨0, 0, 0⟩, ⟨0, 0, 0⟩]).periods ∧
    (∃ k, k < 6 ∧
      ((Profile.mk "SCEN"
          [⟨480, 100, 50⟩, ⟨960, 0, 0⟩, ⟨0, 0, 0⟩, ⟨0, 0, 0⟩, ⟨0, 0, 0⟩,
            ⟨0, 0, 0⟩]).periods.getD k defaultPeriod).duration ≠ 0 ∧
      durSum ((Profile.mk "SCEN"
          [⟨480, 100, 50⟩, ⟨960, 0, 0⟩, ⟨0, 0, 0⟩, ⟨0, 0, 0⟩, ⟨0, 0, 0⟩,
            ⟨0, 0, 0⟩]).periods.take k) ≤
        minutesSinceU32 30000000000 0 % durSum (Profile.mk "SCEN"
          [⟨480, 100, 50⟩, ⟨960, 0, 0⟩, ⟨0, 0, 0⟩, ⟨0, 0, 0⟩, ⟨0, 0, 0⟩, ⟨0, 0, 0⟩]).periods ∧
      minutesSinceU32 30000000000 0 % durSum (Profile.mk "SCEN"
          [⟨480, 100, 50⟩, ⟨960, 0, 0⟩, ⟨0, 0, 0⟩, ⟨0, 0, 0⟩, ⟨0, 0, 0⟩, ⟨0, 0, 0⟩]).periods <
        durSum ((Profile.mk "SCEN"
          [⟨480, 100, 50⟩, ⟨960, 0, 0⟩, ⟨0, 0, 0⟩, ⟨0, 0, 0⟩, ⟨0, 0, 0⟩,
            ⟨0, 0, 0⟩]).periods.take (k + 1)) ∧
      (app_calculate_state 30000000000 0 0 (Profile.mk "SCEN"
          [⟨480, 100, 50⟩, ⟨960, 0, 0⟩, ⟨0, 0, 0⟩, ⟨0, 0, 0⟩, ⟨0, 0, 0⟩, ⟨0, 0, 0⟩])
          initialAppState).1.white_red =
        ((Profile.mk "SCEN"
          [⟨480, 100, 50⟩, ⟨960, 0, 0⟩, ⟨0, 0, 0⟩, ⟨0, 0, 0⟩, ⟨0, 0, 0⟩,
            ⟨0, 0, 0⟩]).periods.getD k defaultPeriod).led_white_red_power ∧
      (app_calculate_state 30000000000 0 0 (Profile.mk "SCEN"
          [⟨480, 100, 50⟩, ⟨960, 0, 0⟩, ⟨0, 0, 0⟩, ⟨0, 0, 0⟩, ⟨0, 0, 0⟩, ⟨0, 0, 0⟩])
          initialAppState).1.blue =
        ((Profile.mk "SCEN"
          [⟨480, 100, 50⟩, ⟨960, 0, 0⟩, ⟨0, 0, 0⟩, ⟨0, 0, 0⟩, ⟨0, 0, 0⟩,
            ⟨0, 0, 0⟩]).periods.getD k defaultPeriod).led_blue_power ∧
      (app_calculate_state 30000000000 0 0 (Profile.mk "SCEN"
          [⟨480, 100, 50⟩, ⟨960, 0, 0⟩, ⟨0, 0, 0⟩, ⟨0, 0, 0⟩, ⟨0, 0, 0⟩, ⟨0, 0, 0⟩])
          initialAppState).1.period_index = (k : Int) ∧
      (app_calculate_state 30000000000 0 0 (Profile.mk "SCEN"
          [⟨480, 100, 50⟩, ⟨960, 0, 0⟩, ⟨0, 0, 0⟩, ⟨0, 0, 0⟩, ⟨0, 0, 0⟩, ⟨0, 0, 0⟩])
          initialAppState).1.period_minutes_left =
        ((durSum ((Profile.mk "SCEN"
          [⟨480, 100, 50⟩, ⟨960, 0, 0⟩, ⟨0, 0, 0⟩, ⟨0, 0, 0⟩, ⟨0, 0, 0⟩,
            ⟨0, 0, 0⟩]).periods.take (k + 1)) : Nat) : Int) -
          ((minutesSinceU32 30000000000 0 % durSum (Profile.mk "SCEN"
            [⟨480, 100, 50⟩, ⟨960, 0, 0⟩, ⟨0, 0, 0⟩, ⟨0, 0, 0⟩, ⟨0, 0, 0⟩,
              ⟨0, 0, 0⟩]).periods : Nat) : Int)) ∧
    ((app_calculate_state 30000000000 0 0 (Profile.mk "SCEN"
        [⟨480, 100, 50⟩, ⟨960, 0, 0⟩, ⟨0, 0, 0⟩, ⟨0, 0, 0⟩, ⟨0, 0, 0⟩, ⟨0, 0, 0⟩])
        initialAppState).1.period_index = 1 ∧
     (app_calculate_state 30000000000 0 0 (Profile.mk "SCEN"
        [⟨480, 100, 50⟩, ⟨960, 0, 0⟩, ⟨0, 0, 0⟩, ⟨0, 0, 0⟩, ⟨0, 0, 0⟩, ⟨0, 0, 0⟩])
        initialAppState).1.white_red = 0 ∧
     (app_calculate_state 30000000000 0 0 (Profile.mk "SCEN"
        [⟨480, 100, 50⟩, ⟨960, 0, 0⟩, ⟨0, 0, 0⟩, ⟨0, 0, 0⟩, ⟨0, 0, 0⟩, ⟨0, 0, 0⟩])
        initialAppState).1.blue = 0 ∧
     (app_calculate_state 30000000000 0 0 (Profile.mk "SCEN"
        [⟨480, 100, 50⟩, ⟨960, 0, 0⟩, ⟨0, 0, 0⟩, ⟨0, 0, 0⟩, ⟨0, 0, 0⟩, ⟨0, 0, 0⟩])
        initialAppState).1.period_minutes_left = 940) :=
  ⟨by decide, by decide, by decide,
   c4_light_schedule_walk 30000000000 0 0 (Profile.mk "SCEN"
      [⟨480, 100, 50⟩, ⟨960, 0, 0⟩, ⟨0, 0, 0⟩, ⟨0, 0, 0⟩, ⟨0, 0, 0⟩, ⟨0, 0, 0⟩])
      initialAppState (by decide) (by decide) (by decide) (by decide) (by decide),
   by decide⟩

/-- Witness for C7 at the VEG factory profile 100 minutes after boot. -/
theorem c7_period_index_positive_duration_witness :
    (∀ p ∈ (defaultProfiles.getD 0 defaultProfile).periods,
      0 ≤ p.duration ∧ p.duration ≤ 1440) ∧
    (defaultProfiles.getD 0 defaultProfile).periods.length = 6 ∧
    0 < durSum (defaultProfiles.getD 0 defaultProfile).periods ∧
    (∃ k : Nat, k < 6 ∧
      (app_calculate_state 6000000000 0 0 (defaultProfiles.getD 0 defaultProfile)
        initialAppState).1.period_index = (k : Int) ∧
      ((defaultProfiles.getD 0 defaultProfile).periods.getD k defaultPeriod).duration > 0) :=
  ⟨by decide, by decide, by decide,
   c7_period_index_positive_duration 6000000000 0 0 (defaultProfiles.getD 0 defaultProfile)
     initialAppState (by decide) (by decide) (by decide)⟩

lemma editIdxInv_show_profile (d : Int) (s : Sys) (h : EditIdxInv s) :
    EditIdxInv (app_encoder_show_profile d s).1 := by
  obtain ⟨hA, hB, hC⟩ := h
  unfold app_encoder_show_profile
  dsimp only
  split_ifs <;> exact ⟨hA, hB, by dsimp only; simp⟩

lemma editIdxInv_edit_profile (d : Int) (s : Sys)
    (hmode : s.current_app_mode = .editProfile) (h : EditIdxInv s) :
    EditIdxInv (app_encoder_edit_profile d s).1 := by
  obtain ⟨hA, hB, hC⟩ := h
  unfold app_encoder_edit_profile
  dsimp only
  split_ifs <;>
    exact ⟨by dsimp only; omega, by dsimp only; omega, by dsimp only; simp [hmode]⟩

lemma editIdxInv_edit_period (d : Int) (s : Sys) (h : EditIdxInv s) :
    EditIdxInv (app_encoder_edit_period d s).1 := by
  obtain ⟨hA, hB, hC⟩ := h
  unfold app_encoder_edit_period
  dsimp only
  split_ifs <;> exact ⟨hA, hB, hC⟩

lemma editIdxInv_edit_duration (d : Int) (s : Sys) (h : EditIdxInv s) :
    EditIdxInv (app_encoder_edit_duration d s).1 := by
  obtain ⟨hA, hB, hC⟩ := h
  unfold app_encoder_edit_duration setCurrentPeriod
  dsimp only
  split_ifs <;> exact ⟨hA, hB, hC⟩

lemma editIdxInv_edit_wr (d : Int) (s : Sys) (h : EditIdxInv s) :
    EditIdxInv (app_encoder_edit_white_red_level d s).1 := by
  obtain ⟨hA, hB, hC⟩ := h
  unfold app_encoder_edit_white_red_level setCurrentPeriod
  dsimp only
  split_ifs <;> exact ⟨hA, hB, hC⟩

lemma editIdxInv_edit_bl (d : Int) (s : Sys) (h : EditIdxInv s) :
    EditIdxInv (app_encoder_edit_blue_level d s).1 := by
  obtain ⟨hA, hB, hC⟩ := h
  unfold app_encoder_edit_blue_level setCurrentPeriod
  dsimp only
  split_ifs <;> exact ⟨hA, hB, hC⟩

lemma editIdxInv_top_menu (d : Int) (s : Sys) (h : EditIdxInv s) :
    EditIdxInv (app_encoder_top_menu d s).1 := by
  obtain ⟨hA, hB, hC⟩ := h
  unfold app_encoder_top_menu
  dsimp only
  split_ifs <;>
    first
      | exact ⟨hA, hB, hC⟩
      | exact ⟨hA, hB, by dsimp only; simp⟩

lemma editIdxInv_time_shift (d : Int) (s : Sys) (h : EditIdxInv s) :
    EditIdxInv (app_encoder_time_shift d s).1 := by
  obtain ⟨hA, hB, hC⟩ := h
  unfold app_encoder_time_shift
  dsimp only
  split_ifs <;> exact ⟨hA, hB, hC⟩

lemma editIdxInv_rotate (d : Int) (n : Nat) (s : Sys) (h : EditIdxInv s) :
    EditIdxInv (app_on_encoder_change d n s).1 := by
  unfold app_on_encoder_change
  by_cases hd : d = 0
  · rw [if_pos hd]
    exact h
  rw [if_neg hd]
  dsimp only
  have h1 : EditIdxInv { s with last_encoder_time := n } := ⟨h.1, h.2.1, h.2.2⟩
  split
  · exact editIdxInv_show_profile d _ h1
  · exact editIdxInv_show_profile d _ h1
  · next heq => exact editIdxInv_edit_profile d _ heq h1
  · exact editIdxInv_edit_period d _ h1
  · exact editIdxInv_edit_duration d _ h1
  · exact editIdxInv_edit_wr d _ h1
  · exact editIdxInv_edit_bl d _ h1
  · exact editIdxInv_top_menu d _ h1
  · exact editIdxInv_time_shift d _ h1

lemma editIdxInv_reload (s : Sys) (h : EditIdxInv s) :
    EditIdxInv (app_reload_profiles s) := by
  obtain ⟨hA, hB, hC⟩ := h
  unfold app_reload_profiles
  split
  · exact ⟨hA, hB, hC⟩
  · exact ⟨hA, hB, by dsimp only; simp⟩

lemma editIdxInv_click (n : Nat) (s : Sys) (h : EditIdxInv s) :
    EditIdxInv (app_on_click n s) := by
  obtain ⟨hA, hB, hC⟩ := h
  unfold app_on_click
  dsimp only
  split
  · -- showProfile
    split_ifs
    · unfold runCalc
      exact ⟨hA, hB, by dsimp only; simp⟩
    · exact ⟨hA, hB, hC⟩
  · -- showState
    exact ⟨by dsimp only; omega, by dsimp only; omega, by dsimp only; simp⟩
  · -- editProfile
    split_ifs with hidx
    · exact ⟨hA, hB, by dsimp only; simp⟩
    · refine ⟨hA, hB, fun _ => ?_⟩
      show (0 : Int) ≤ s.current_edit_period_index
      omega
  · -- editPeriod: inner match on the edited field
    next heq =>
    split
    · exact ⟨hA, hB, by dsimp only; simp⟩
    · exact ⟨hA, hB, fun _ => hC (Or.inl heq)⟩
    · exact ⟨hA, hB, fun _ => hC (Or.inl heq)⟩
    · exact ⟨hA, hB, fun _ => hC (Or.inl heq)⟩
  · -- editDuration
    next heq => exact ⟨hA, hB, fun _ => hC (Or.inr (Or.inl heq))⟩
  · -- editWrLevel
    next heq => exact ⟨hA, hB, fun _ => hC (Or.inr (Or.inr (Or.inl heq)))⟩
  · -- editBlLevel
    next heq => exact ⟨hA, hB, fun _ => hC (Or.inr (Or.inr (Or.inr heq)))⟩
  · -- topMenu: inner match on the action
    split
    · unfold app_save_profiles
      exact ⟨hA, hB, by dsimp only; simp⟩
    · exact editIdxInv_reload _ ⟨hA, hB, hC⟩
    · exact ⟨hA, hB, hC⟩
    · exact ⟨hA, hB, by dsimp only; simp⟩
  · -- timeShift
    split_ifs
    · unfold runCalc
      exact ⟨hA, hB, by dsimp only; simp⟩
    · exact ⟨hA, hB, by dsimp only; simp⟩

lemma editIdxInv_tick (n : Nat) (s : Sys) (h : EditIdxInv s) :
    EditIdxInv (app_tick n s) := by
  obtain ⟨hA, hB, hC⟩ := h
  unfold app_tick
  dsimp only
  split_ifs <;>
    first
      | (unfold runCalc; exact ⟨hA, hB, by dsimp only; simp⟩)
      | (unfold runCalc; exact ⟨hA, hB, hC⟩)
      | exact ⟨hA, hB, hC⟩
      | simp_all

lemma editIdxInv_init (flash : FlashRegion) (t0 : Nat) :
    EditIdxInv (app_init flash t0) := by
  apply editIdxInv_tick
  apply editIdxInv_reload
  unfold initSys
  exact ⟨by dsimp only; omega, by dsimp only; omega, by dsimp only; simp⟩

/-- C9: in every state reachable from a cold start by any sequence of
rotations, clicks and ticks, `current_edit_period_index` stays within
`[-1, 5]`, and in the modes `EditPeriod`, `EditDuration`, `EditWrLevel`
and `EditBlLevel` it is never `-1`, so the period-slot accesses of the
duration and power edit handlers stay in bounds. -/
theorem c9_edit_index_invariant (s : Sys) (h : Reachable s) : EditIdxInv s := by
  induction h with
  | init flash t0 => exact editIdxInv_init flash t0
  | rotate delta nowUs _ ih => exact editIdxInv_rotate delta nowUs _ ih
  | click nowUs _ ih => exact editIdxInv_click nowUs _ ih
  | tick nowUs _ ih => exact editIdxInv_tick nowUs _ ih

/-- Witness for C9: the cold-start state over an empty flash region is
reachable and satisfies the index invariant. -/
theorem c9_edit_index_invariant_witness :
    Reachable (app_init .noMagic 0) ∧ EditIdxInv (app_init .noMagic 0) :=
  ⟨Reachable.init .noMagic 0,
   c9_edit_index_invariant _ (Reachable.init .noMagic 0)⟩
